import Mathlib

/-!
Verification development for the Document Intelligence System
(a RAG question-answering service over user-uploaded PDFs).

The repository ships the React frontend (`api.js`, `Auth`, `Home`, `Chat`)
and a README describing the FastAPI backend.  The frontend pages are
embedded here directly from their JavaScript source; JavaScript strings
are modelled as `List Char`, with `jsTrim` / `String.prototype.endsWith`
rendered as structural functions on character lists.  The backend engine
(registry, vector index, retrieval router, answer composer) is not part
of the shipped sources, so it is modelled from the specification; every
such definition carries a doc comment starting `Modelled from the spec:`.
-/

/-- Character list of a string literal (JavaScript strings are modelled
as `List Char`). -/
def chars (s : String) : List Char := s.data

/-- JavaScript `String.prototype.trim()`: drop whitespace from both ends. -/
def jsTrim (s : List Char) : List Char :=
  ((s.dropWhile Char.isWhitespace).reverse.dropWhile Char.isWhitespace).reverse

/-- JavaScript `String.prototype.endsWith(suffix)`. -/
def jsEndsWith (s suffix : List Char) : Bool :=
  List.isSuffixOf suffix s

/- ---------------------------------------------------------------------
Backend data model.  Modelled from the spec (the FastAPI backend is not
among the shipped sources; §3 Data Model, §4.4 Vector Index, §4.5
Retrieval Router, §4.6 Answer Composer, §6 External Interfaces).
--------------------------------------------------------------------- -/

/-- Modelled from the spec: a Registry record of one uploaded document
(identity, owning user id, filename, sizes, upload time, chunk count).
The backend Registry itself is missing from the shipped sources. -/
structure Document where
  id : Nat
  userId : Nat
  filename : List Char
  fileSize : Nat
  pageCount : Nat
  chunkCount : Nat
  uploadDate : Nat
  deriving DecidableEq, Repr

/-- Modelled from the spec: one stored chunk of the per-user Vector
Index — owning user id (denormalized for isolation), owning document id,
sequence id, text, embedding vector.  Embedding vectors are rational
vectors here; the floating-point embedding service is external. -/
structure IndexEntry where
  userId : Nat
  documentId : Nat
  chunkId : Nat
  text : List Char
  vector : List Rat
  deriving DecidableEq, Repr

/-- Modelled from the spec: the engine's two stores — the Document
Registry and the Vector Index (both missing from the shipped sources). -/
structure EngineState where
  registry : List Document
  index : List IndexEntry
  deriving DecidableEq, Repr

/- ---------------------------------------------------------------------
Vector Index.
--------------------------------------------------------------------- -/

/-- Insert one scored chunk into a list sorted ascending by distance. -/
def insertByDistance (x : IndexEntry × Rat) :
    List (IndexEntry × Rat) → List (IndexEntry × Rat)
  | [] => [x]
  | y :: ys => if x.2 ≤ y.2 then x :: y :: ys else y :: insertByDistance x ys

/-- Sort scored chunks ascending by distance (insertion sort). -/
def sortByDistance : List (IndexEntry × Rat) → List (IndexEntry × Rat)
  | [] => []
  | x :: xs => insertByDistance x (sortByDistance xs)

/-- Modelled from the spec: Vector Index `query` — filter strictly by
user id and document id before ranking (isolation invariant), score the
surviving chunks with the distance function, sort ascending by distance
and keep the top `k`.  The distance metric (cosine distance in the
external ChromaDB service) is passed in as `dist`. -/
def indexSearch (dist : List Rat → List Rat → Rat) (index : List IndexEntry)
    (userId documentId : Nat) (qvec : List Rat) (k : Nat) :
    List (IndexEntry × Rat) :=
  (sortByDistance
    ((index.filter (fun e => e.userId == userId && e.documentId == documentId)).map
      (fun e => (e, dist e.vector qvec)))).take k

/- ---------------------------------------------------------------------
Retrieval Router.
--------------------------------------------------------------------- -/

/-- Modelled from the spec: the fixed routing threshold (≈1.63 on the
embedding/distance scale; README: "distance > 1.63" falls back). -/
def THRESHOLD : Rat := 163 / 100

/-- Modelled from the spec: default `k` for targeted retrieval. -/
def DEFAULT_K : Nat := 4

/-- Modelled from the spec: larger `k` for summary-style questions. -/
def SUMMARY_K : Nat := 10

/-- Substring test on character lists (JavaScript `includes`). -/
def hasSubstring (kw : List Char) : List Char → Bool
  | [] => kw.isEmpty
  | c :: rest => List.isPrefixOf kw (c :: rest) || hasSubstring kw rest

/-- Modelled from the spec: keyword heuristic for summary intent
("summarize", "overview", "main points"). -/
def isSummaryQuestion (q : List Char) : Bool :=
  [chars "summarize", chars "summary", chars "overview", chars "main points"].any
    (fun kw => hasSubstring kw (q.map Char.toLower))

/-- Minimum distance among the returned chunks, `none` when no chunk
was returned. -/
def bestDist : List (IndexEntry × Rat) → Option Rat
  | [] => none
  | r :: rs => some ((rs.map Prod.snd).foldl min r.2)

/-- Modelled from the spec: the routing decision — fallback when
`best_distance` is undefined or exceeds the threshold, grounded when it
is at or below the threshold. -/
def isGrounded : Option Rat → Bool
  | none => false
  | some b => decide (b ≤ THRESHOLD)

/-- Modelled from the spec: the retrieval result of one query — the
retrieved `(chunk, distance)` list, the context set kept for
generation, the best distance and the routing mode. -/
structure RetrievalResult where
  retrieved : List (IndexEntry × Rat)
  context : List (IndexEntry × Rat)
  best_distance : Option Rat
  grounded : Bool
  deriving DecidableEq, Repr

/-- Modelled from the spec: `route` — choose `k` by intent, search the
index for the caller's (user, document) pair, compute the best
distance, decide the mode; the context set is all retrieved chunks in
grounded mode (policy choice: all `k`) and empty in fallback mode. -/
def route (dist : List Rat → List Rat → Rat) (index : List IndexEntry)
    (userId documentId : Nat) (qvec : List Rat) (question : List Char) :
    RetrievalResult :=
  let k := if isSummaryQuestion question then SUMMARY_K else DEFAULT_K
  let retrieved := indexSearch dist index userId documentId qvec k
  let best := bestDist retrieved
  { retrieved := retrieved
    context := if isGrounded best then retrieved else []
    best_distance := best
    grounded := isGrounded best }

/- ---------------------------------------------------------------------
Answer Composer and the query endpoint.
--------------------------------------------------------------------- -/

/-- The failure kinds of `POST /query` (spec §6: `DocumentNotFound`,
`EmbeddingUnavailable`, `GenerationFailed`). -/
inductive QueryError where
  | DocumentNotFound
  | EmbeddingUnavailable
  | GenerationFailed
  deriving DecidableEq, Repr

/-- The wire shape of a successful `POST /query` response, as the
client consumes it in `Chat.handleSubmit`: `answer`, `source`,
`chunks_used`, `best_distance`. -/
structure Answer where
  answer : List Char
  source : List Char
  chunks_used : Nat
  best_distance : Option Rat
  deriving DecidableEq, Repr

/-- Modelled from the spec: the grounded-mode prompt — answer strictly
from the supplied context chunks. -/
def groundedPrompt (question : List Char) (ctx : List (IndexEntry × Rat)) :
    List Char :=
  chars "Answer strictly from the following document context. " ++
    (ctx.map (fun c => c.1.text)).flatten ++ chars " Question: " ++ question

/-- Modelled from the spec: the fallback-mode prompt — answer from
general knowledge, stating the document lacked relevant information. -/
def fallbackPrompt (question : List Char) : List Char :=
  chars "Answer from general knowledge and state that the document did not contain relevant information. Question: " ++ question

/-- Modelled from the spec: dual-mode prompting — pick the prompt for
the retrieval result's mode. -/
def promptFor (question : List Char) (rr : RetrievalResult) : List Char :=
  if rr.grounded then groundedPrompt question rr.context else fallbackPrompt question

/-- Modelled from the spec: the Answer Composer's provenance metadata —
`source` is "document" in grounded mode and "general_knowledge" in
fallback mode; `chunks_used` counts the context chunks; the best
distance is passed through. -/
def composeAnswer (text : List Char) (rr : RetrievalResult) : Answer :=
  { answer := text
    source := if rr.grounded then chars "document" else chars "general_knowledge"
    chunks_used := rr.context.length
    best_distance := rr.best_distance }

/-- Does the Registry hold a document with this id owned by this
caller?  (spec §6: `DocumentNotFound` means wrong user or id.) -/
def documentOwned (registry : List Document) (userId documentId : Nat) : Bool :=
  registry.any (fun d => d.id == documentId && d.userId == userId)

/-- Modelled from the spec: `POST query(user_id, document_id, question)`.
Ownership is checked first (`DocumentNotFound` on wrong user or id),
the question is embedded (`EmbeddingUnavailable` when the embedder is
down), the router retrieves and decides the mode, the language model is
invoked on the mode's prompt (`GenerationFailed` when it fails), and
the composed answer is returned.  The external embedder and language
model are passed in as fallible functions. -/
def queryEngine (dist : List Rat → List Rat → Rat)
    (embed : List Char → Option (List Rat))
    (llm : List Char → Option (List Char))
    (st : EngineState) (userId documentId : Nat) (question : List Char) :
    Except QueryError Answer :=
  if documentOwned st.registry userId documentId then
    match embed question with
    | none => .error .EmbeddingUnavailable
    | some qvec =>
      let rr := route dist st.index userId documentId qvec question
      match llm (promptFor question rr) with
      | none => .error .GenerationFailed
      | some text => .ok (composeAnswer text rr)
  else .error .DocumentNotFound

/-- Modelled from the spec: `GET list_documents(user_id)` — the
caller's documents from the Registry. -/
def listDocuments (st : EngineState) (userId : Nat) : List Document :=
  st.registry.filter (fun d => d.userId == userId)

/-- Modelled from the spec: `DELETE delete_document(user_id,
document_id)` — removes the Registry entry and all Index chunks of that
document for that user together; a no-op when none exist (idempotent). -/
def deleteDocument (st : EngineState) (userId documentId : Nat) : EngineState :=
  { registry := st.registry.filter (fun d => !(d.id == documentId && d.userId == userId))
    index := st.index.filter (fun e => !(e.documentId == documentId && e.userId == userId)) }

/- ---------------------------------------------------------------------
Upload boundary.
--------------------------------------------------------------------- -/

/-- Modelled from the spec: the configured upload size cap (10 MB). -/
def MAX_UPLOAD_BYTES : Nat := 10 * 1024 * 1024

/-- A file as selected in the browser: name, byte size, and whether its
content is actually a PDF. -/
structure UploadFile where
  name : List Char
  size : Nat
  isPdf : Bool
  deriving DecidableEq, Repr

/-- Outcome of presenting one file to the ingestion boundary. -/
inductive IngestOutcome where
  | payloadRejected
  | ingestionStarted (file : UploadFile)
  deriving DecidableEq, Repr

/-- Modelled from the spec: the §6 boundary check — the file must be a
PDF and at most the configured cap; violations fail fast with
`PayloadRejected` before ingestion begins. -/
def ingestBoundary (file : UploadFile) : IngestOutcome :=
  if !file.isPdf || MAX_UPLOAD_BYTES < file.size then .payloadRejected
  else .ingestionStarted file

namespace Home

/-- What `Home.handleFileChange` does with the selected file. -/
inductive UploadAction where
  | ignored
  | rejectedNonPdf
  | submitted (file : UploadFile)
  deriving DecidableEq, Repr

/-- `Home.handleFileChange` (Home page source, lines 29–54): no file →
return; name not ending in ".pdf" → error "Only PDF files are allowed"
and no upload request; otherwise `uploadDocument(file)` is called. -/
def handleFileChange (file : Option UploadFile) : UploadAction :=
  match file with
  | none => .ignored
  | some f =>
    if !(jsEndsWith f.name (chars ".pdf")) then .rejectedNonPdf
    else .submitted f

/-- The upload path a selected file takes: the Home page check, then
the backend boundary check, then ingestion. -/
inductive UploadResult where
  | notSent
  | payloadRejected
  | ingestionStarted (file : UploadFile)
  deriving DecidableEq, Repr

/-- The composed upload pipeline: frontend `handleFileChange`, then the
spec-modelled `ingestBoundary`; ingestion work starts only when both
checks pass. -/
def uploadPipeline (file : Option UploadFile) : UploadResult :=
  match handleFileChange file with
  | .ignored => .notSent
  | .rejectedNonPdf => .notSent
  | .submitted f =>
    match ingestBoundary f with
    | .payloadRejected => .payloadRejected
    | .ingestionStarted g => .ingestionStarted g

/-- `Home.handleDelete` document-list update (Home page source,
line 62): `documents.filter((d) => d.id !== docId)`. -/
def handleDelete (documents : List Document) (docId : Nat) : List Document :=
  documents.filter (fun d => !(d.id == docId))

end Home

namespace Chat

/-- A transcript message of the Chat page: a user turn, or an AI turn
carrying the answer fields the client consumed. -/
inductive Message where
  | user (content : List Char)
  | ai (content : List Char) (source : List Char) (chunksUsed : Nat)
      (bestDistance : Option Rat)
  deriving DecidableEq, Repr

/-- The AI message `Chat.handleSubmit` builds from a successful query
response (Chat page source, lines 49–55): content from `answer`, plus
`source`, `chunks_used`, `best_distance`. -/
def mkAiMessage (r : Answer) : Message :=
  .ai r.answer r.source r.chunks_used r.best_distance

/-- The Chat page state touched by `handleSubmit`: the transcript, the
input field, the loading flag and the error banner. -/
structure ChatState where
  messages : List Message
  question : List Char
  loading : Bool
  error : List Char
  deriving DecidableEq, Repr

/-- The submit guard (Chat page source, line 39):
`if (!question.trim() || loading) return;`. -/
def guardBlocks (st : ChatState) : Bool :=
  (jsTrim st.question).isEmpty || st.loading

/-- The send button's disabled condition (Chat page source, line 134):
`disabled={loading || !question.trim()}`. -/
def sendDisabled (st : ChatState) : Bool :=
  st.loading || (jsTrim st.question).isEmpty

/-- `Chat.handleSubmit` (Chat page source, lines 37–62) as a state
transition.  The guard aborts untouched and sends nothing.  Otherwise
the user turn is appended and the question, loading flag and error are
reset; on a successful response the AI turn is appended and loading
cleared, on a failure the error detail is shown instead.  The returned
Bool records whether `queryDocument` was called. -/
def handleSubmit (errDetail : QueryError → List Char) (st : ChatState)
    (result : Except QueryError Answer) : ChatState × Bool :=
  if guardBlocks st then (st, false)
  else
    match result with
    | .ok r =>
      ({ messages := st.messages ++ [.user st.question, mkAiMessage r]
         question := []
         loading := false
         error := [] }, true)
    | .error e =>
      ({ messages := st.messages ++ [.user st.question]
         question := []
         loading := false
         error := errDetail e }, true)

end Chat

namespace Api

/-- The client-side state the axios interceptors touch: the stored
token (`localStorage`) and the window location. -/
structure ClientState where
  token : Option (List Char)
  location : List Char
  deriving DecidableEq, Repr

/-- The request interceptor (api.js lines 12–18): attach
`Authorization: Bearer <token>` exactly when a token is stored. -/
def requestAuthHeader (st : ClientState) : Option (List Char) :=
  match st.token with
  | some t => some (chars "Bearer " ++ t)
  | none => none

/-- The response interceptor's error handler (api.js lines 20–29): on
HTTP 401 remove the stored token and navigate to "/" before the error
is propagated; any other status leaves the client state unchanged. -/
def onResponseError (st : ClientState) (status : Nat) : ClientState :=
  if status == 401 then { token := none, location := chars "/" } else st

end Api


/- ---------------------------------------------------------------------
Helper lemmas.
--------------------------------------------------------------------- -/

theorem mem_insertByDistance {x y : IndexEntry × Rat}
    {l : List (IndexEntry × Rat)} (h : y ∈ insertByDistance x l) :
    y = x ∨ y ∈ l := by
  induction l with
  | nil =>
    simp only [insertByDistance] at h
    exact Or.inl (List.mem_singleton.1 h)
  | cons a l ih =>
    rw [insertByDistance] at h
    split at h
    · rcases List.mem_cons.1 h with h | h
      · exact Or.inl h
      · exact Or.inr h
    · rcases List.mem_cons.1 h with h | h
      · exact Or.inr (List.mem_cons.2 (Or.inl h))
      · rcases ih h with h | h
        · exact Or.inl h
        · exact Or.inr (List.mem_cons.2 (Or.inr h))

theorem mem_sortByDistance {y : IndexEntry × Rat}
    {l : List (IndexEntry × Rat)} (h : y ∈ sortByDistance l) : y ∈ l := by
  induction l with
  | nil =>
    simp only [sortByDistance] at h
    exact absurd h (List.not_mem_nil y)
  | cons a l ih =>
    rw [sortByDistance] at h
    rcases mem_insertByDistance h with h | h
    · exact h ▸ List.mem_cons_self a l
    · exact List.mem_cons.2 (Or.inr (ih h))

theorem mem_indexSearch {dist : List Rat → List Rat → Rat}
    {index : List IndexEntry} {u d k : Nat} {qvec : List Rat}
    {e : IndexEntry × Rat} (h : e ∈ indexSearch dist index u d qvec k) :
    e.1 ∈ index ∧ e.1.userId = u ∧ e.1.documentId = d := by
  rw [indexSearch] at h
  have h1 := mem_sortByDistance (List.take_subset _ _ h)
  rcases List.mem_map.1 h1 with ⟨a, ha, hae⟩
  rcases List.mem_filter.1 ha with ⟨hmem, hpred⟩
  simp only [Bool.and_eq_true, beq_iff_eq] at hpred
  subst hae
  exact ⟨hmem, hpred.1, hpred.2⟩

theorem notOwned_of_other_user (reg : List Document) (u1 u2 d : Nat)
    (hne : u1 ≠ u2) (howner : ∀ doc ∈ reg, doc.id = d → doc.userId = u1) :
    documentOwned reg u2 d = false := by
  rw [documentOwned, List.any_eq_false]
  intro doc hdoc
  simp only [Bool.and_eq_true, beq_iff_eq, not_and]
  intro hid huid
  exact hne ((howner doc hdoc hid).symm.trans huid)

theorem documentOwned_after_delete (reg : List Document) (u d : Nat) :
    documentOwned (reg.filter (fun x => !(x.id == d && x.userId == u))) u d =
      false := by
  rw [documentOwned, List.any_eq_false]
  intro x hx
  rcases List.mem_filter.1 hx with ⟨-, hpred⟩
  rw [Bool.not_eq_true'] at hpred
  simp [hpred]

theorem filter_idem {α : Type} (p : α → Bool) (l : List α) :
    (l.filter p).filter p = l.filter p := by
  rw [List.filter_filter]
  exact List.filter_congr (fun x _ => Bool.and_self (p x))

theorem deleted_list_view (reg : List Document) (u d : Nat) :
    (reg.filter (fun x => !(x.id == d && x.userId == u))).filter
        (fun x => x.userId == u) =
      (reg.filter (fun x => x.userId == u)).filter (fun x => !(x.id == d)) := by
  rw [List.filter_filter, List.filter_filter]
  refine List.filter_congr (fun x _ => ?_)
  cases hxu : (x.userId == u) <;> cases hxd : (x.id == d) <;> simp [hxu, hxd]

/-- Fallback routing as a function of the best distance: the iffs
between the routing mode plus the composed `source` field and the
position of the best distance relative to the threshold. -/
theorem routing_source_iff (ob : Option Rat) :
    (isGrounded ob = false ∧
        (if isGrounded ob = true then chars "document"
         else chars "general_knowledge") = chars "general_knowledge" ↔
      ob = none ∨ ∃ b, ob = some b ∧ THRESHOLD < b) ∧
    (isGrounded ob = true ∧
        (if isGrounded ob = true then chars "document"
         else chars "general_knowledge") = chars "document" ↔
      ∃ b, ob = some b ∧ b ≤ THRESHOLD) := by
  rcases ob with - | b
  · simp [isGrounded]
  · by_cases hb : b ≤ THRESHOLD
    · simp [isGrounded, hb, not_lt.2 hb]
    · simp [isGrounded, hb, not_le.1 hb]

/- ---------------------------------------------------------------------
Claim theorems.
--------------------------------------------------------------------- -/

/-- Claim C1: tenant isolation of query — for users U1 ≠ U2 and a
document owned by U1, `query(U2, D, q)` fails with `DocumentNotFound`
for every question, and the retrieval stage only ever surfaces chunks
whose user id and document id equal the caller's request. -/
theorem claim_C1_tenant_isolation (dist : List Rat → List Rat → Rat)
    (embed : List Char → Option (List Rat)) (llm : List Char → Option (List Char))
    (st : EngineState) (u1 u2 docId : Nat) (q : List Char)
    (hne : u1 ≠ u2)
    (howner : ∀ doc ∈ st.registry, doc.id = docId → doc.userId = u1) :
    queryEngine dist embed llm st u2 docId q = .error .DocumentNotFound ∧
    ∀ (qvec : List Rat) (e : IndexEntry × Rat),
      e ∈ (route dist st.index u2 docId qvec q).retrieved →
      e.1.userId = u2 ∧ e.1.documentId = docId := by
  constructor
  · rw [queryEngine, notOwned_of_other_user st.registry u1 u2 docId hne howner]
    rfl
  · intro qvec e he
    exact (mem_indexSearch he).2

/-- Claim C1 witness: in a state where document 5 belongs to user 1,
user 2's query for it fails with `DocumentNotFound`. -/
theorem claim_C1_tenant_isolation_witness :
    (1 : Nat) ≠ 2 ∧
    queryEngine (fun _ _ => 1) (fun _ => some [1]) (fun _ => some [])
      ⟨[⟨5, 1, chars "a.pdf", 4500, 3, 1, 0⟩], [⟨1, 5, 0, chars "alpha", [1]⟩]⟩
      2 5 (chars "what is this") = .error .DocumentNotFound := by
  refine ⟨by decide, ?_⟩
  exact (claim_C1_tenant_isolation (fun _ _ => 1) (fun _ => some [1])
    (fun _ => some [])
    ⟨[⟨5, 1, chars "a.pdf", 4500, 3, 1, 0⟩], [⟨1, 5, 0, chars "alpha", [1]⟩]⟩
    1 2 5 (chars "what is this") (by decide)
    (by intro doc hdoc _; rw [List.mem_singleton] at hdoc; rw [hdoc])).1

/-- Claim C2: threshold routing — the result is fallback mode with
source "general_knowledge" exactly when `best_distance` is undefined or
exceeds the threshold 1.63, and grounded mode with source "document"
exactly when `best_distance` is at or below the threshold; routing is
therefore monotone in the best distance. -/
theorem claim_C2_threshold_routing (dist : List Rat → List Rat → Rat)
    (index : List IndexEntry) (u d : Nat) (qvec : List Rat)
    (q text : List Char) :
    ((route dist index u d qvec q).grounded = false ∧
        (composeAnswer text (route dist index u d qvec q)).source =
          chars "general_knowledge" ↔
      (route dist index u d qvec q).best_distance = none ∨
        ∃ b, (route dist index u d qvec q).best_distance = some b ∧
          THRESHOLD < b) ∧
    ((route dist index u d qvec q).grounded = true ∧
        (composeAnswer text (route dist index u d qvec q)).source =
          chars "document" ↔
      ∃ b, (route dist index u d qvec q).best_distance = some b ∧
        b ≤ THRESHOLD) := by
  simp only [route, composeAnswer]
  exact routing_source_iff _

/-- Claim C3: zero-chunk fallback — when the caller owns the document
but the Vector Index holds no chunks for it (never ingested, ingestion
incomplete or failed), the query returns fallback mode with
`chunks_used = 0` and `best_distance = null`, never grounded mode. -/
theorem claim_C3_zero_chunk_fallback (dist : List Rat → List Rat → Rat)
    (embed : List Char → Option (List Rat)) (llm : List Char → Option (List Char))
    (st : EngineState) (u d : Nat) (q : List Char) (qvec : List Rat)
    (text : List Char)
    (hreg : documentOwned st.registry u d = true)
    (hzero : st.index.filter (fun e => e.userId == u && e.documentId == d) = [])
    (hembed : embed q = some qvec)
    (hllm : llm (fallbackPrompt q) = some text) :
    queryEngine dist embed llm st u d q =
      .ok { answer := text, source := chars "general_knowledge",
            chunks_used := 0, best_distance := none } := by
  have hsearch : ∀ k, indexSearch dist st.index u d qvec k = [] := by
    intro k
    rw [indexSearch, hzero]
    simp [sortByDistance]
  simp [queryEngine, hreg, hembed, route, hsearch, bestDist, isGrounded,
    promptFor, composeAnswer, hllm]

/-- Claim C3 witness: document 5 of user 1 is registered but has no
indexed chunks; the query answers from general knowledge with zero
chunks used and no best distance. -/
theorem claim_C3_zero_chunk_fallback_witness :
    documentOwned [⟨5, 1, chars "a.pdf", 4500, 3, 0, 0⟩] 1 5 = true ∧
    queryEngine (fun _ _ => 1) (fun _ => some [1]) (fun _ => some (chars "ok"))
      ⟨[⟨5, 1, chars "a.pdf", 4500, 3, 0, 0⟩], []⟩ 1 5 (chars "what") =
      .ok ⟨chars "ok", chars "general_knowledge", 0, none⟩ := by
  refine ⟨by decide, ?_⟩
  exact claim_C3_zero_chunk_fallback (fun _ _ => 1) (fun _ => some [1])
    (fun _ => some (chars "ok")) ⟨[⟨5, 1, chars "a.pdf", 4500, 3, 0, 0⟩], []⟩
    1 5 (chars "what") [1] (chars "ok") (by decide) rfl rfl rfl

/-- Claim C4: query response shape — an `Answer` consists of exactly
the four contract fields (answer text, source, chunks_used,
best_distance), the Chat client's AI message is built from exactly
those four fields, and every failure of the query endpoint is one of
`DocumentNotFound`, `EmbeddingUnavailable`, `GenerationFailed`. -/
theorem claim_C4_response_shape (dist : List Rat → List Rat → Rat)
    (embed : List Char → Option (List Rat)) (llm : List Char → Option (List Char))
    (st : EngineState) (u d : Nat) (q : List Char) :
    (∀ a : Answer,
      a = { answer := a.answer, source := a.source,
            chunks_used := a.chunks_used, best_distance := a.best_distance }) ∧
    (∀ a : Answer, queryEngine dist embed llm st u d q = .ok a →
      Chat.mkAiMessage a =
        .ai a.answer a.source a.chunks_used a.best_distance) ∧
    (∀ e : QueryError, queryEngine dist embed llm st u d q = .error e →
      e = .DocumentNotFound ∨ e = .EmbeddingUnavailable ∨
        e = .GenerationFailed) := by
  refine ⟨fun a => rfl, fun a _ => rfl, fun e _ => ?_⟩
  cases e
  · exact Or.inl rfl
  · exact Or.inr (Or.inl rfl)
  · exact Or.inr (Or.inr rfl)

/-- A concrete successful query: document 5 of user 1 registered with
no indexed chunks, functioning embedder and language model. -/
theorem queryEngine_concrete_ok :
    queryEngine (fun _ _ => 1) (fun _ => some [1]) (fun _ => some (chars "ok"))
      ⟨[⟨5, 1, chars "a.pdf", 4500, 3, 0, 0⟩], []⟩ 1 5 (chars "what") =
      .ok ⟨chars "ok", chars "general_knowledge", 0, none⟩ := by
  simp [queryEngine, documentOwned, route, indexSearch, sortByDistance,
    bestDist, isGrounded, promptFor, composeAnswer]

/-- A concrete failing query: an empty engine state knows no document,
so the query fails with `DocumentNotFound`. -/
theorem queryEngine_concrete_error :
    queryEngine (fun _ _ => 1) (fun _ => some [1]) (fun _ => some [])
      ⟨[], []⟩ 1 5 (chars "q") = .error .DocumentNotFound := by
  simp [queryEngine, documentOwned]

/-- Claim C4 witness: the AI message of a concrete successful query is
built from its four answer fields, and the error of a concrete failing
query is one of the three contract failures. -/
theorem claim_C4_response_shape_witness :
    Chat.mkAiMessage ⟨chars "ok", chars "general_knowledge", 0, none⟩ =
      .ai (chars "ok") (chars "general_knowledge") 0 none ∧
    (QueryError.DocumentNotFound = .DocumentNotFound ∨
      QueryError.DocumentNotFound = .EmbeddingUnavailable ∨
      QueryError.DocumentNotFound = .GenerationFailed) := by
  refine ⟨?_, ?_⟩
  · exact (claim_C4_response_shape (fun _ _ => 1) (fun _ => some [1])
      (fun _ => some (chars "ok")) ⟨[⟨5, 1, chars "a.pdf", 4500, 3, 0, 0⟩], []⟩
      1 5 (chars "what")).2.1
      ⟨chars "ok", chars "general_knowledge", 0, none⟩ queryEngine_concrete_ok
  · exact (claim_C4_response_shape (fun _ _ => 1) (fun _ => some [1])
      (fun _ => some []) ⟨[], []⟩ 1 5 (chars "q")).2.2
      .DocumentNotFound queryEngine_concrete_error

/-- Claim C5: payload validation before ingestion — a file that is not
a PDF or exceeds the 10 MB cap is rejected at the boundary with
`PayloadRejected` before ingestion begins; the Home page additionally
refuses to submit a file whose name does not end in ".pdf"; and a
non-PDF file never starts ingestion through the upload pipeline. -/
theorem claim_C5_payload_validation (f : UploadFile) :
    (f.isPdf = false ∨ MAX_UPLOAD_BYTES < f.size →
      ingestBoundary f = .payloadRejected) ∧
    (jsEndsWith f.name (chars ".pdf") = false →
      Home.handleFileChange (some f) = .rejectedNonPdf) ∧
    (f.isPdf = false →
      ∀ g, Home.uploadPipeline (some f) ≠ .ingestionStarted g) := by
  refine ⟨?_, ?_, ?_⟩
  · rintro (h | h) <;> simp [ingestBoundary, h]
  · intro h
    simp [Home.handleFileChange, h]
  · intro h g
    cases he : jsEndsWith f.name (chars ".pdf") <;>
      simp [Home.uploadPipeline, Home.handleFileChange, he, ingestBoundary, h]

/-- Claim C5 witness: a 5-byte non-PDF file named "notes.txt" is
rejected by the boundary, not submitted by the Home page, and never
starts ingestion. -/
theorem claim_C5_payload_validation_witness :
    ingestBoundary ⟨chars "notes.txt", 5, false⟩ = .payloadRejected ∧
    Home.handleFileChange (some ⟨chars "notes.txt", 5, false⟩) =
      .rejectedNonPdf ∧
    ∀ g, Home.uploadPipeline (some ⟨chars "notes.txt", 5, false⟩) ≠
      .ingestionStarted g := by
  obtain ⟨h1, h2, h3⟩ := claim_C5_payload_validation ⟨chars "notes.txt", 5, false⟩
  exact ⟨h1 (Or.inl rfl), h2 (by decide), h3 rfl⟩

/-- Claim C6: deletion completeness and frame — after
`delete_document(u, d)` the caller's document list equals the previous
list with exactly the id-`d` entries removed (matching the Home page's
own list update), a subsequent query for that id returns
`DocumentNotFound`, the index holds zero chunks for that (user,
document) pair, and delete is idempotent. -/
theorem claim_C6_delete_frame (dist : List Rat → List Rat → Rat)
    (embed : List Char → Option (List Rat)) (llm : List Char → Option (List Char))
    (st : EngineState) (u d : Nat) (q : List Char) :
    listDocuments (deleteDocument st u d) u =
      Home.handleDelete (listDocuments st u) d ∧
    queryEngine dist embed llm (deleteDocument st u d) u d q =
      .error .DocumentNotFound ∧
    (deleteDocument st u d).index.filter
      (fun e => e.userId == u && e.documentId == d) = [] ∧
    deleteDocument (deleteDocument st u d) u d = deleteDocument st u d := by
  refine ⟨?_, ?_, ?_, ?_⟩
  · simpa [listDocuments, deleteDocument, Home.handleDelete] using
      deleted_list_view st.registry u d
  · rw [queryEngine]
    rw [show (deleteDocument st u d).registry =
      st.registry.filter (fun x => !(x.id == d && x.userId == u)) from rfl]
    rw [documentOwned_after_delete st.registry u d]
    rfl
  · rw [show (deleteDocument st u d).index =
      st.index.filter (fun e => !(e.documentId == d && e.userId == u)) from rfl]
    rw [List.filter_eq_nil_iff]
    intro x hx
    rcases List.mem_filter.1 hx with ⟨-, hpred⟩
    rw [Bool.not_eq_true'] at hpred
    simp only [Bool.and_eq_true, beq_iff_eq]
    rintro ⟨hxu, hxd⟩
    rw [hxd, hxu] at hpred
    simp at hpred
  · simp only [deleteDocument]
    rw [filter_idem, filter_idem]

/-- Claim C7: conversation transcript — when the guard passes and the
query succeeds, `Chat.handleSubmit` extends the transcript by exactly
the question as a user turn followed by the answer (with source,
chunks_used, best_distance) as an AI turn, clears the input, loading
flag and error, and sends exactly one request. -/
theorem claim_C7_transcript (errDetail : QueryError → List Char)
    (st : Chat.ChatState) (r : Answer)
    (hguard : Chat.guardBlocks st = false) :
    Chat.handleSubmit errDetail st (.ok r) =
      ({ messages :=
           st.messages ++ [.user st.question, Chat.mkAiMessage r]
         question := []
         loading := false
         error := [] }, true) := by
  simp [Chat.handleSubmit, hguard]

/-- Claim C7 witness: submitting "hi" with a successful document-mode
answer appends the user turn and the AI turn. -/
theorem claim_C7_transcript_witness :
    Chat.guardBlocks ⟨[], chars "hi", false, []⟩ = false ∧
    Chat.handleSubmit (fun _ => []) ⟨[], chars "hi", false, []⟩
      (.ok ⟨chars "yes", chars "document", 2, some 1⟩) =
      ({ messages := [.user (chars "hi"),
           Chat.mkAiMessage ⟨chars "yes", chars "document", 2, some 1⟩]
         question := []
         loading := false
         error := [] }, true) := by
  refine ⟨by decide, ?_⟩
  exact claim_C7_transcript (fun _ => []) ⟨[], chars "hi", false, []⟩
    ⟨chars "yes", chars "document", 2, some 1⟩ (by decide)

/-- Claim C8: blank-question guard — when the trimmed question is empty
or a query is in flight, submitting sends no request and leaves the
state unchanged; and the send button is disabled in exactly those
states. -/
theorem claim_C8_blank_question_guard (errDetail : QueryError → List Char)
    (st : Chat.ChatState) (result : Except QueryError Answer) :
    ((jsTrim st.question).isEmpty = true ∨ st.loading = true →
      Chat.handleSubmit errDetail st result = (st, false)) ∧
    (Chat.sendDisabled st = true ↔
      (jsTrim st.question).isEmpty = true ∨ st.loading = true) := by
  constructor
  · rintro (h | h) <;> simp [Chat.handleSubmit, Chat.guardBlocks, h]
  · simp [Chat.sendDisabled, Bool.or_eq_true, or_comm]

/-- Claim C8 witness: a whitespace-only question leads to no request
and an unchanged state, with the send button disabled. -/
theorem claim_C8_blank_question_guard_witness :
    Chat.handleSubmit (fun _ => []) ⟨[], chars "   ", false, []⟩
      (.error .GenerationFailed) = (⟨[], chars "   ", false, []⟩, false) ∧
    Chat.sendDisabled ⟨[], chars "   ", false, []⟩ = true := by
  obtain ⟨h1, h2⟩ := claim_C8_blank_question_guard (fun _ => [])
    ⟨[], chars "   ", false, []⟩ (.error .GenerationFailed)
  exact ⟨h1 (Or.inl (by decide)), h2.2 (Or.inl (by decide))⟩

/-- Claim C9: unauthorized-response invariant — on an HTTP 401 the
client removes the stored token and navigates to the landing page, so
no subsequent request carries the invalidated token; any other status
leaves the client state unchanged. -/
theorem claim_C9_unauthorized_response (st : Api.ClientState) (status : Nat) :
    (status = 401 →
      Api.onResponseError st status = ⟨none, chars "/"⟩ ∧
      Api.requestAuthHeader (Api.onResponseError st status) = none) ∧
    (status ≠ 401 → Api.onResponseError st status = st) := by
  constructor
  · intro h
    subst h
    exact ⟨rfl, rfl⟩
  · intro h
    simp [Api.onResponseError, h]

/-- Claim C9 witness: a 401 clears the stored token and sends the
client to "/", after which no auth header is attached; a 404 leaves the
state unchanged. -/
theorem claim_C9_unauthorized_response_witness :
    Api.onResponseError ⟨some (chars "tok"), chars "/home"⟩ 401 =
      ⟨none, chars "/"⟩ ∧
    Api.requestAuthHeader
      (Api.onResponseError ⟨some (chars "tok"), chars "/home"⟩ 401) = none ∧
    Api.onResponseError ⟨some (chars "tok"), chars "/home"⟩ 404 =
      ⟨some (chars "tok"), chars "/home"⟩ := by
  refine ⟨?_, ?_, ?_⟩
  · exact ((claim_C9_unauthorized_response
      ⟨some (chars "tok"), chars "/home"⟩ 401).1 rfl).1
  · exact ((claim_C9_unauthorized_response
      ⟨some (chars "tok"), chars "/home"⟩ 401).1 rfl).2
  · exact (claim_C9_unauthorized_response
      ⟨some (chars "tok"), chars "/home"⟩ 404).2 (by decide)
